import Mathlib

/-!
# Verification of the pyjector command dispatcher

A shallow embedding of `pyjector/pyjector.py`: a configuration-driven
command dispatcher for a serial-connected projector.  Device profiles are
JSON documents, so configuration values are modelled by a JSON-like `Value`
type and Python dictionaries by association lists over `String` keys.
Python exceptions are modelled by an explicit error type carried in
`Except`.
-/

namespace Pyjector

/-- JSON-like configuration values, as produced by `json.loads` on a device
profile file.  Numbers are modelled as rationals (covering both the integer
and the `1.5` stop-bit values appearing in the code's lookup tables). -/
inductive Value where
  | str : String → Value
  | num : ℚ → Value
  | bool : Bool → Value
  | null : Value
  | dict : List (String × Value) → Value
deriving Repr

mutual

/-- Boolean equality on `Value` (the nested `dict` constructor prevents
deriving `DecidableEq` directly), mutually recursive with equality of
dictionary entry lists. -/
def beqValue : Value → Value → Bool
  | .str a, .str b => decide (a = b)
  | .num a, .num b => decide (a = b)
  | .bool a, .bool b => decide (a = b)
  | .null, .null => true
  | .dict a, .dict b => beqEntries a b
  | _, _ => false

def beqEntries : List (String × Value) → List (String × Value) → Bool
  | [], [] => true
  | (k, v) :: r, (k', v') :: r' =>
    decide (k = k') && beqValue v v' && beqEntries r r'
  | _, _ => false

end

instance : DecidableEq Value := fun a b =>
  decidable_of_iff (beqValue a b = true) (by
    refine beqValue.induct (fun a b => beqValue a b = true ↔ a = b)
      (fun l1 l2 => beqEntries l1 l2 = true ↔ l1 = l2)
      ?_ ?_ ?_ ?_ ?_ ?_ ?_ ?_ ?_ a b
    · intro a b
      simp [beqValue]
    · intro a b
      simp [beqValue]
    · intro a b
      simp [beqValue]
    · simp [beqValue]
    · intro a b ih
      simp [beqValue, ih]
    · intro t x h1 h2 h3 h4 h5
      cases t <;> cases x <;>
        first
          | exact (h1 _ _ rfl rfl).elim
          | exact (h2 _ _ rfl rfl).elim
          | exact (h3 _ _ rfl rfl).elim
          | exact (h4 rfl rfl).elim
          | exact (h5 _ _ rfl rfl).elim
          | simp [beqValue]
    · simp [beqEntries]
    · intro k v r k' v' r' ih1 ih2
      simp only [beqEntries, Bool.and_eq_true, decide_eq_true_eq, ih1, ih2,
        List.cons.injEq, Prod.mk.injEq]
    · intro t x h1 h2
      cases t <;> cases x <;>
        first
          | exact (h1 rfl rfl).elim
          | exact (h2 _ _ _ _ _ _ rfl rfl).elim
          | simp [beqEntries])

/-- A Python dictionary with string keys, as an association list in
insertion order. -/
abbrev Dict := List (String × Value)

/-- `d[k]` lookup that may miss: first binding of `k` in `d`. -/
def getKey (d : Dict) (k : String) : Option Value :=
  match d with
  | [] => Option.none
  | (k', v) :: rest => if k' = k then some v else getKey rest k

/-- `d[k] = v`: replace the first binding of `k`, or append if absent
(Python dict assignment preserves insertion order of existing keys). -/
def setKey (d : Dict) (k : String) (v : Value) : Dict :=
  match d with
  | [] => [(k, v)]
  | (k', v') :: rest => if k' = k then (k, v) :: rest else (k', v') :: setKey rest k v

/-- `d.update(o)`: assign each binding of `o` into `d`, in order. -/
def updateDict (d : Dict) (o : Dict) : Dict :=
  o.foldl (fun acc kv => setKey acc kv.1 kv.2) d

/-- The keys of a dictionary, in order. -/
def keysOf (d : Dict) : List String := d.map Prod.fst

/-- Python exceptions raised by the code under study. -/
inductive PyError where
  | keyError : String → PyError
  | typeError : String → PyError
  | attributeError : String → PyError
deriving DecidableEq, Repr

/-- Python `len(v)`: defined on strings and dicts, a `TypeError`
otherwise. -/
def pyLen : Value → Except PyError Nat
  | .str s => .ok s.length
  | .dict d => .ok d.length
  | _ => .error (.typeError "object has no len()")

/-- Python `str(v)` as used by `str.format` substitution: strings are
inserted verbatim; integral numbers print without a fractional part. -/
def pyStr : Value → String
  | .str s => s
  | .num q => if q.den = 1 then toString q.num else toString q
  | .bool b => if b then "True" else "False"
  | .null => "None"
  | .dict _ => "\x7b...\x7d"

/-- Python 2 `time.sleep`: takes exactly one numeric argument.  Any other
arity raises a `TypeError`, as does a non-numeric argument. -/
def timeSleep (args : List Value) : Except PyError Unit :=
  match args with
  | [.num _] => .ok ()
  | [_] => .error (.typeError "a float is required")
  | _ =>
    .error (.typeError
      ("sleep() takes exactly 1 argument (" ++ toString args.length ++ " given)"))

/-- `Pyjector.possible_pyserial_settings`: the allow-list of serial setting
keys recognized by pyserial. -/
def possible_pyserial_settings : List String :=
  ["port", "baudrate", "bytesize", "parity", "stopbits", "timeout",
   "xonxoff", "rtscts", "dsrdtr", "writeTimeout", "InterCharTimeout"]

/-- The pyserial byte-size constants (`serial.FIVEBITS` … `serial.EIGHTBITS`
are the integers 5–8 in the pyserial library). -/
def FIVEBITS : Value := .num 5

def SIXBITS : Value := .num 6

def SEVENBITS : Value := .num 7

def EIGHTBITS : Value := .num 8

/-- The pyserial parity constants are one-letter strings. -/
def PARITY_NONE : Value := .str "N"

def PARITY_EVEN : Value := .str "E"

def PARITY_ODD : Value := .str "O"

def PARITY_MARK : Value := .str "M"

def PARITY_SPACE : Value := .str "S"

/-- The pyserial stop-bit constants are the numbers 1, 1.5 and 2. -/
def STOPBITS_ONE : Value := .num 1

def STOPBITS_ONE_POINT_FIVE : Value := .num (3 / 2)

def STOPBITS_TWO : Value := .num 2

/-- The `bytesize` entry of `Pyjector.pyserial_config_converter`. -/
def bytesize_table : List (Value × Value) :=
  [(.num 5, FIVEBITS), (.num 6, SIXBITS), (.num 7, SEVENBITS), (.num 8, EIGHTBITS)]

/-- The `parity` entry of `Pyjector.pyserial_config_converter`. -/
def parity_table : List (Value × Value) :=
  [(.str "none", PARITY_NONE), (.str "even", PARITY_EVEN), (.str "odd", PARITY_ODD),
   (.str "mark", PARITY_MARK), (.str "space", PARITY_SPACE)]

/-- The `stopbits` entry of `Pyjector.pyserial_config_converter`. -/
def stopbits_table : List (Value × Value) :=
  [(.num 1, STOPBITS_ONE), (.num (3 / 2), STOPBITS_ONE_POINT_FIVE), (.num 2, STOPBITS_TWO)]

/-- `key in self.pyserial_config_converter` plus
`self.pyserial_config_converter[key]`: the translation table for `key`, if
`key` is one of the three keys requiring enum translation. -/
def lookupConverter (key : String) : Option (List (Value × Value)) :=
  if key = "bytesize" then some bytesize_table
  else if key = "parity" then some parity_table
  else if key = "stopbits" then some stopbits_table
  else Option.none

/-- `table[value]` lookup in one translation table. -/
def lookupVal (t : List (Value × Value)) (v : Value) : Option Value :=
  match t with
  | [] => Option.none
  | (k, x) :: rest => if k = v then some x else lookupVal rest v

/-- The message of the `KeyError` raised by `_validate_config` when the
`serial` section is missing (the source concatenates two adjacent string
literals without a space, hence `serialconfig`). -/
def missingSerialMsg (device_id : String) : String :=
  "Configuration file for " ++ device_id ++
    " does not contain needed serialconfig values. Add a `serial` section to the config."

/-- The message of the `KeyError` raised by `_validate_config` when
`command_list` is missing or empty (the source's message again says to add
a `serial` section). -/
def noCommandsMsg (device_id : String) : String :=
  "Configuration file for " ++ device_id ++
    " does not define any commands. Add a `serial` section to the config."

/-- The message of the `KeyError` raised by `get_device_config_from_id`
(note the two spaces before the backquoted path, from the adjacent string
literals in the source). -/
def deviceNotFoundMsg (device_id : String) : String :=
  "Could not find device config with name " ++ device_id ++
    ". Check that the file exists in  `pyjector/projector_configs/`"

/-- The message of the `KeyError` raised by `get_pyserial_config` for a
serial setting key outside the allow-list. -/
def unsupportedSettingMsg (device_id key : String) : String :=
  "Configuration file for " ++ device_id ++ " specifies a serial setting \"" ++
    key ++
    "\" not recognized by pyserial. Check http://pyserial.sourceforge.net/pyserial_api.htmlfor valid settings"

/-- The message of the `KeyError` raised by `get_pyserial_config` for a
value with no entry in its translation table. -/
def unsupportedValueMsg (device_id : String) (value : Value) (key : String) : String :=
  "Configuration file for " ++ device_id ++ " specifies a serial setting for \"" ++
    pyStr value ++ "\" for key \"" ++ key ++
    "\" not recognized by pyserial. Check http://pyserial.sourceforge.net/pyserial_api.htmlfor valid settings"

/-- `Pyjector._validate_config`: raise unless the config has a `serial`
key and a `command_list` key whose value has nonzero length. -/
def validate_config (device_id : String) (config : Dict) : Except PyError Unit :=
  if (getKey config "serial").isNone then
    .error (.keyError (missingSerialMsg device_id))
  else
    match getKey config "command_list" with
    | Option.none => .error (.keyError (noCommandsMsg device_id))
    | some v =>
      match pyLen v with
      | .error e => .error e
      | .ok n => if n = 0 then .error (.keyError (noCommandsMsg device_id)) else .ok ()

/-- `Pyjector._apply_overrides`: `self.config.update(overrides)`. -/
def apply_overrides (config overrides : Dict) : Dict :=
  updateDict config overrides

/-- `Pyjector.get_device_config_from_id`: look up `device_id` in the
loaded catalog, re-raising the `KeyError` with a message naming the
identifier and the catalog directory. -/
def get_device_config_from_id (available_configs : List (String × Dict))
    (device_id : String) : Except PyError Dict :=
  match available_configs with
  | [] => .error (.keyError (deviceNotFoundMsg device_id))
  | (name, cfg) :: rest =>
    if name = device_id then .ok cfg
    else get_device_config_from_id rest device_id

/-- The loop of `Pyjector.get_pyserial_config`: iterate over a snapshot of
`serial_config.items()` (Python 2 `items()` is a list taken once), checking
each key against the allow-list and rewriting values of converter keys in
place via `serial_config[key] = converter[key][value]`. -/
def get_pyserial_config_go (device_id : String) :
    List (String × Value) → Dict → Except PyError Dict
  | [], serial_config => .ok serial_config
  | (key, value) :: rest, serial_config =>
    if key ∉ possible_pyserial_settings then
      .error (.keyError (unsupportedSettingMsg device_id key))
    else
      match lookupConverter key with
      | some table =>
        match lookupVal table value with
        | some nv => get_pyserial_config_go device_id rest (setKey serial_config key nv)
        | Option.none => .error (.keyError (unsupportedValueMsg device_id value key))
      | Option.none => get_pyserial_config_go device_id rest serial_config

/-- `Pyjector.get_pyserial_config`: validate and translate
`self.config['serial']`, mutating that mapping in place and returning it.
The mutation is made explicit: on success the result is the pair of the
updated `config` (whose `serial` entry now holds the translated mapping)
and the translated mapping itself — the two are one object in the
source. -/
def get_pyserial_config (device_id : String) (config : Dict) :
    Except PyError (Dict × Dict) :=
  match getKey config "serial" with
  | some (.dict sc) =>
    match get_pyserial_config_go device_id sc sc with
    | .ok sc' => .ok (setKey config "serial" (.dict sc'), sc')
    | .error e => .error e
  | some _ => .error (.attributeError "object has no attribute items()")
  | Option.none => .error (.keyError "serial")

/-- The configuration pipeline of `Pyjector.get_config` after the catalog
has been loaded: look up the device profile, merge overrides, validate,
and translate the serial settings.  On success it returns the merged
profile (with its `serial` entry rewritten in place) together with the
pyserial settings mapping. -/
def get_config (available_configs : List (String × Dict)) (device_id : String)
    (overrides : Dict) : Except PyError (Dict × Dict) :=
  match get_device_config_from_id available_configs device_id with
  | .error e => .error e
  | .ok config =>
    let config := apply_overrides config overrides
    match validate_config device_id config with
    | .error e => .error e
    | .ok _ => get_pyserial_config device_id config

/-- One serial-settings entry is acceptable to `get_pyserial_config`: its
key is allow-listed, and if the key requires enum translation the value has
a table entry. -/
def entryOk (kv : String × Value) : Bool :=
  decide (kv.1 ∈ possible_pyserial_settings) &&
    match lookupConverter kv.1 with
    | some table => (lookupVal table kv.2).isSome
    | Option.none => true

/-- The in-place effect of one loop iteration of `get_pyserial_config` on
the serial mapping: rewrite the value of a converter key through its table
(no-op when the key needs no translation). -/
def translateStep (acc : Dict) (kv : String × Value) : Dict :=
  match lookupConverter kv.1 with
  | some table =>
    match lookupVal table kv.2 with
    | some nv => setKey acc kv.1 nv
    | Option.none => acc
  | Option.none => acc

/-- The `serial` block of a representative device profile (in the style of
the benq catalog entry the code ships for). -/
def demoSerial : Dict :=
  [("port", .str "/dev/ttyS0"), ("baudrate", .num 9600), ("bytesize", .num 8),
   ("parity", .str "none"), ("stopbits", .num 1), ("timeout", .num 1)]

/-- A representative device profile: serial settings, a non-empty command
list, the three surround fields and a wait time. -/
def demoConfig : Dict :=
  [("serial", .dict demoSerial),
   ("command_list", .dict
     [("power", .dict [("command", .str "pow"),
       ("actions", .dict [("on", .str "on"), ("off", .str "off")])])]),
   ("left_surround", .str "("), ("seperator", .str ":"),
   ("right_surround", .str ")"), ("wait_time", .num 1)]

/-- `demoSerial` after enum translation: `parity` has been rewritten from
`"none"` to pyserial's `"N"`; the numeric byte-size and stop-bit constants
happen to coincide with their configured values. -/
def demoSerialTranslated : Dict :=
  [("port", .str "/dev/ttyS0"), ("baudrate", .num 9600), ("bytesize", .num 8),
   ("parity", .str "N"), ("stopbits", .num 1), ("timeout", .num 1)]

/-- `demoConfig` after `get_pyserial_config` has run once: the `serial`
entry now holds the translated mapping. -/
def demoConfigTranslated : Dict :=
  [("serial", .dict demoSerialTranslated),
   ("command_list", .dict
     [("power", .dict [("command", .str "pow"),
       ("actions", .dict [("on", .str "on"), ("off", .str "off")])])]),
   ("left_surround", .str "("), ("seperator", .str ":"),
   ("right_surround", .str ")"), ("wait_time", .num 1)]

/-- `demoConfig` with no `wait_time` key. -/
def noWaitConfig : Dict :=
  [("serial", .dict demoSerial),
   ("command_list", .dict
     [("power", .dict [("command", .str "pow"),
       ("actions", .dict [("on", .str "on"), ("off", .str "off")])])]),
   ("left_surround", .str "("), ("seperator", .str ":"),
   ("right_surround", .str ")")]

/-- A profile whose `serial` block is present but empty, with a non-empty
command list. -/
def emptySerialConfig : Dict :=
  [("serial", .dict []),
   ("command_list", .dict [("power", .dict [("command", .str "pow")])])]

/-- A serial block whose first entry has an allow-listed key with an
untranslatable value and whose second entry has a key outside the
allow-list. -/
def mixedBadSerial : Dict :=
  [("parity", .str "zzz"), ("flowcontrol", .num 1)]

/-- A serial block whose first entry has a key outside the allow-list and
whose second entry has an allow-listed converter key with an untranslatable
value. -/
def mixedBadSerial2 : Dict :=
  [("flowcontrol", .num 1), ("parity", .str "zzz")]

/-- The state of the pyserial `serial.Serial` transport handle:
the strings written so far, and the pending inbound bytes. -/
structure SerialPort where
  written : List String
  inbuffer : List Char
deriving DecidableEq, Repr

/-- `serial.inWaiting()`: the number of pending inbound bytes. -/
def inWaiting (s : SerialPort) : Nat := s.inbuffer.length

/-- `serial.write(msg)`. -/
def writeSerial (s : SerialPort) (msg : String) : SerialPort :=
  { s with written := s.written ++ [msg] }

/-- `serial.read(1)`: one byte off the inbound buffer (the source only ever
reads when `inWaiting() > 0`, so the empty case is unreachable there). -/
def readOne (s : SerialPort) : String × SerialPort :=
  match s.inbuffer with
  | [] => ("", s)
  | c :: rest => (String.mk [c], { s with inbuffer := rest })

/-- The loop body of `Pyjector._get_response`:
`while self.serial.inWaiting() > 0: response += self.serial.read(1)`. -/
def get_response_go (response : String) (s : SerialPort) : String × SerialPort :=
  match s with
  | ⟨w, []⟩ => (response, ⟨w, []⟩)
  | ⟨w, c :: rest⟩ => get_response_go (response ++ String.mk [c]) ⟨w, rest⟩

/-- `Pyjector._get_response`: drain the serial inbound buffer byte by byte
into a response string. -/
def get_response (s : SerialPort) : String × SerialPort :=
  get_response_go "" s

/-- `Pyjector._create_command_string`: the format string interpolates
left_surround, command, seperator, action and right_surround in that
order, the three surround fields looked up via `config.get` with an
empty-string default. -/
def create_command_string (config : Dict) (command action : String) : String :=
  pyStr ((getKey config "left_surround").getD (.str "")) ++
    command ++
    pyStr ((getKey config "seperator").getD (.str "")) ++
    action ++
    pyStr ((getKey config "right_surround").getD (.str ""))

/-- `Pyjector._command_handler`: build the wire string, write it to the
transport, call `sleep(self.config.get('wait_time'), 1)` — note the two
arguments passed to `time.sleep` in the source — and then drain the
response buffer. -/
def command_handler (config : Dict) (ser : SerialPort) (command action : String) :
    Except PyError (String × SerialPort) :=
  let command_string := create_command_string config command action
  let ser1 := writeSerial ser command_string
  match timeSleep [(getKey config "wait_time").getD Value.null, Value.num 1] with
  | .error e => .error e
  | .ok _ => .ok (get_response ser1)

/-! ## Dictionary lemmas -/

theorem getKey_setKey_self (d : Dict) (k : String) (v : Value) :
    getKey (setKey d k v) k = some v := by
  induction d with
  | nil => simp [setKey, getKey]
  | cons kv rest ih =>
    obtain ⟨a, b⟩ := kv
    by_cases h : a = k <;> simp [setKey, getKey, h, ih]

theorem getKey_setKey_ne (d : Dict) (k k' : String) (v : Value) (h : k' ≠ k) :
    getKey (setKey d k v) k' = getKey d k' := by
  induction d with
  | nil => simp [setKey, getKey, Ne.symm h]
  | cons kv rest ih =>
    obtain ⟨a, b⟩ := kv
    by_cases ha : a = k
    · subst ha
      simp [setKey, getKey, Ne.symm h]
    · by_cases hk' : a = k'
      · subst hk'
        simp [setKey, getKey, ha]
      · simp [setKey, getKey, ha, hk', ih]

theorem getKey_eq_none_of_not_mem (d : Dict) (k : String) (h : k ∉ keysOf d) :
    getKey d k = Option.none := by
  induction d with
  | nil => rfl
  | cons kv rest ih =>
    obtain ⟨a, b⟩ := kv
    simp [keysOf] at h
    simp [getKey, Ne.symm h.1, ih (by simpa [keysOf] using h.2)]

theorem getKey_of_mem_nodup (d : Dict) (k : String) (v : Value)
    (hnd : (keysOf d).Nodup) (hmem : (k, v) ∈ d) : getKey d k = some v := by
  induction d with
  | nil => cases hmem
  | cons kv rest ih =>
    obtain ⟨a, b⟩ := kv
    simp only [keysOf, List.map_cons, List.nodup_cons] at hnd
    rcases List.mem_cons.1 hmem with heq | hrest
    · cases heq
      simp [getKey]
    · have hak : a ≠ k := by
        intro hh
        exact hnd.1 (hh ▸ (List.mem_map.2 ⟨(k, v), hrest, rfl⟩))
      simp [getKey, hak, ih hnd.2 hrest]

theorem getKey_updateDict_not_mem (d ov : Dict) (k : String) (h : k ∉ keysOf ov) :
    getKey (updateDict d ov) k = getKey d k := by
  induction ov generalizing d with
  | nil => rfl
  | cons kv rest ih =>
    obtain ⟨a, b⟩ := kv
    simp [keysOf] at h
    show getKey (updateDict (setKey d a b) rest) k = getKey d k
    rw [ih _ (by simpa [keysOf] using h.2)]
    exact getKey_setKey_ne _ _ _ _ h.1

theorem getKey_updateDict (d ov : Dict) (k : String)
    (hnd : (keysOf ov).Nodup) :
    getKey (updateDict d ov) k =
      match getKey ov k with
      | some v => some v
      | Option.none => getKey d k := by
  induction ov generalizing d with
  | nil => rfl
  | cons kv rest ih =>
    obtain ⟨a, b⟩ := kv
    simp only [keysOf, List.map_cons, List.nodup_cons] at hnd
    show getKey (updateDict (setKey d a b) rest) k = _
    by_cases hak : a = k
    · subst hak
      have hnone : getKey rest a = Option.none :=
        getKey_eq_none_of_not_mem _ _ (by simpa [keysOf] using hnd.1)
      rw [ih _ hnd.2, hnone]
      simp [getKey, getKey_setKey_self]
    · rw [ih _ hnd.2]
      simp only [getKey, hak, if_false]
      cases getKey rest k <;> simp [getKey_setKey_ne _ _ _ _ (Ne.symm hak)]

/-! ## Lemmas about the serial-settings conversion loop -/

theorem getKey_translateStep_ne (acc : Dict) (kv : String × Value) (k : String)
    (h : k ≠ kv.1) : getKey (translateStep acc kv) k = getKey acc k := by
  obtain ⟨a, b⟩ := kv
  cases hc : lookupConverter a with
  | none => simp [translateStep, hc]
  | some t =>
    cases hl : lookupVal t b with
    | none => simp [translateStep, hc, hl]
    | some nv =>
      simp only [translateStep, hc, hl]
      exact getKey_setKey_ne _ _ _ _ h

theorem getKey_foldl_translateStep_not_mem (items : List (String × Value)) (acc : Dict)
    (k : String) (h : k ∉ items.map Prod.fst) :
    getKey (items.foldl translateStep acc) k = getKey acc k := by
  induction items generalizing acc with
  | nil => rfl
  | cons kv rest ih =>
    simp only [List.map_cons, List.mem_cons, not_or] at h
    rw [List.foldl_cons, ih _ h.2, getKey_translateStep_ne _ _ _ h.1]

theorem getKey_foldl_translateStep_mem (items : List (String × Value)) (acc : Dict)
    (k : String) (v : Value) (hnd : (items.map Prod.fst).Nodup)
    (hmem : (k, v) ∈ items) :
    getKey (items.foldl translateStep acc) k =
      match lookupConverter k with
      | some table =>
        match lookupVal table v with
        | some nv => some nv
        | Option.none => getKey acc k
      | Option.none => getKey acc k := by
  induction items generalizing acc with
  | nil => cases hmem
  | cons kv rest ih =>
    obtain ⟨a, b⟩ := kv
    simp only [List.map_cons, List.nodup_cons] at hnd
    rcases List.mem_cons.1 hmem with heq | hrest
    · cases heq
      have hnot : k ∉ rest.map Prod.fst := hnd.1
      rw [List.foldl_cons, getKey_foldl_translateStep_not_mem _ _ _ hnot]
      cases hc : lookupConverter k with
      | none => simp [translateStep, hc]
      | some t =>
        cases hl : lookupVal t v with
        | none => simp [translateStep, hc, hl]
        | some nv =>
          simp only [translateStep, hc, hl]
          exact getKey_setKey_self _ _ _
    · have hak : a ≠ k := by
        intro hh
        exact hnd.1 (hh ▸ (List.mem_map.2 ⟨(k, v), hrest, rfl⟩))
      rw [List.foldl_cons, ih _ hnd.2 hrest,
        getKey_translateStep_ne _ _ _ (Ne.symm hak)]

theorem go_step_ok (device_id : String) (kv : String × Value)
    (rest : List (String × Value)) (acc : Dict) (h : entryOk kv = true) :
    get_pyserial_config_go device_id (kv :: rest) acc =
      get_pyserial_config_go device_id rest (translateStep acc kv) := by
  obtain ⟨key, value⟩ := kv
  simp only [entryOk, Bool.and_eq_true, decide_eq_true_eq] at h
  cases hconv : lookupConverter key with
  | none => simp [get_pyserial_config_go, translateStep, h.1, hconv]
  | some t =>
    have h2 := h.2
    rw [hconv] at h2
    obtain ⟨nv, hnv⟩ := Option.isSome_iff_exists.1 h2
    simp [get_pyserial_config_go, translateStep, h.1, hconv, hnv]

theorem go_ok_of_entries (device_id : String) (items : List (String × Value))
    (acc : Dict) (h : ∀ kv ∈ items, entryOk kv = true) :
    get_pyserial_config_go device_id items acc =
      .ok (items.foldl translateStep acc) := by
  induction items generalizing acc with
  | nil => rfl
  | cons kv rest ih =>
    rw [go_step_ok device_id kv rest acc (h kv (List.mem_cons_self _ _)),
      List.foldl_cons]
    exact ih _ (fun kv' hm => h kv' (List.mem_cons_of_mem _ hm))

theorem go_ok_iff (device_id : String) (items : List (String × Value)) (acc : Dict) :
    (∃ out, get_pyserial_config_go device_id items acc = .ok out) ↔
      ∀ kv ∈ items, entryOk kv = true := by
  induction items generalizing acc with
  | nil => simp [get_pyserial_config_go]
  | cons kv rest ih =>
    obtain ⟨key, value⟩ := kv
    by_cases hmem : key ∈ possible_pyserial_settings
    · cases hconv : lookupConverter key with
      | none =>
        have hstep : entryOk (key, value) = true := by
          simp [entryOk, hmem, hconv]
        rw [go_step_ok device_id _ rest acc hstep]
        simp only [List.mem_cons, forall_eq_or_imp, hstep, true_and]
        exact ih _
      | some t =>
        cases hlv : lookupVal t value with
        | none =>
          have hbad : entryOk (key, value) = false := by
            simp [entryOk, hmem, hconv, hlv]
          have hgo : get_pyserial_config_go device_id ((key, value) :: rest) acc =
              .error (.keyError (unsupportedValueMsg device_id value key)) := by
            simp [get_pyserial_config_go, hmem, hconv, hlv]
          simp [hgo, hbad]
        | some nv =>
          have hstep : entryOk (key, value) = true := by
            simp [entryOk, hmem, hconv, hlv]
          rw [go_step_ok device_id _ rest acc hstep]
          simp only [List.mem_cons, forall_eq_or_imp, hstep, true_and]
          exact ih _
    · have hgo : get_pyserial_config_go device_id ((key, value) :: rest) acc =
          .error (.keyError (unsupportedSettingMsg device_id key)) := by
        simp [get_pyserial_config_go, hmem]
      have hbad : entryOk (key, value) = false := by
        simp [entryOk, hmem]
      simp [hgo, hbad]

theorem go_first_bad_key (device_id : String) (pre : List (String × Value))
    (k : String) (v : Value) (post : List (String × Value)) (acc : Dict)
    (hk : k ∉ possible_pyserial_settings)
    (hpre : ∀ kv ∈ pre, entryOk kv = true) :
    get_pyserial_config_go device_id (pre ++ (k, v) :: post) acc =
      .error (.keyError (unsupportedSettingMsg device_id k)) := by
  induction pre generalizing acc with
  | nil => simp [get_pyserial_config_go, hk]
  | cons kv rest ih =>
    rw [List.cons_append,
      go_step_ok device_id kv _ acc (hpre kv (List.mem_cons_self _ _))]
    exact ih _ (fun kv' hm => hpre kv' (List.mem_cons_of_mem _ hm))

theorem go_first_bad_value (device_id : String) (pre : List (String × Value))
    (k : String) (v : Value) (table : List (Value × Value))
    (post : List (String × Value)) (acc : Dict)
    (hmem : k ∈ possible_pyserial_settings)
    (hconv : lookupConverter k = some table)
    (hlv : lookupVal table v = Option.none)
    (hpre : ∀ kv ∈ pre, entryOk kv = true) :
    get_pyserial_config_go device_id (pre ++ (k, v) :: post) acc =
      .error (.keyError (unsupportedValueMsg device_id v k)) := by
  induction pre generalizing acc with
  | nil => simp [get_pyserial_config_go, hmem, hconv, hlv]
  | cons kv rest ih =>
    rw [List.cons_append,
      go_step_ok device_id kv _ acc (hpre kv (List.mem_cons_self _ _))]
    exact ih _ (fun kv' hm => hpre kv' (List.mem_cons_of_mem _ hm))

theorem go_all_allowed (device_id : String) (items : List (String × Value)) (acc : Dict)
    (hall : ∀ kv ∈ items, kv.1 ∈ possible_pyserial_settings) :
    (∃ out, get_pyserial_config_go device_id items acc = .ok out) ∨
    (∃ k v table, (k, v) ∈ items ∧ lookupConverter k = some table ∧
      lookupVal table v = Option.none ∧
      get_pyserial_config_go device_id items acc =
        .error (.keyError (unsupportedValueMsg device_id v k))) := by
  induction items generalizing acc with
  | nil => exact Or.inl ⟨acc, rfl⟩
  | cons kv rest ih =>
    obtain ⟨key, value⟩ := kv
    have hkey : key ∈ possible_pyserial_settings :=
      hall (key, value) (List.mem_cons_self _ _)
    cases hconv : lookupConverter key with
    | none =>
      have hstep : entryOk (key, value) = true := by simp [entryOk, hkey, hconv]
      rw [go_step_ok device_id _ rest acc hstep]
      rcases ih (translateStep acc (key, value))
          (fun kv' hm => hall kv' (List.mem_cons_of_mem _ hm)) with hok | ⟨k, v, t, hm, hc, hl, he⟩
      · exact Or.inl hok
      · exact Or.inr ⟨k, v, t, List.mem_cons_of_mem _ hm, hc, hl, he⟩
    | some t =>
      cases hlv : lookupVal t value with
      | none =>
        refine Or.inr ⟨key, value, t, List.mem_cons_self _ _, hconv, hlv, ?_⟩
        simp [get_pyserial_config_go, hkey, hconv, hlv]
      | some nv =>
        have hstep : entryOk (key, value) = true := by
          simp [entryOk, hkey, hconv, hlv]
        rw [go_step_ok device_id _ rest acc hstep]
        rcases ih (translateStep acc (key, value))
            (fun kv' hm => hall kv' (List.mem_cons_of_mem _ hm)) with hok | ⟨k, v, t', hm, hc, hl, he⟩
        · exact Or.inl hok
        · exact Or.inr ⟨k, v, t', List.mem_cons_of_mem _ hm, hc, hl, he⟩

/-! ## Lemmas about the response drain loop -/

theorem get_response_go_spec (w : List String) (buf : List Char) (r : String) :
    get_response_go r ⟨w, buf⟩ = (r ++ String.mk buf, ⟨w, []⟩) := by
  induction buf generalizing r with
  | nil => simp [get_response_go]
  | cons c rest ih =>
    simp only [get_response_go]
    rw [ih, String.append_assoc]
    rfl

theorem get_response_spec (s : SerialPort) :
    get_response s = (String.mk s.inbuffer, ⟨s.written, []⟩) := by
  obtain ⟨w, buf⟩ := s
  rw [get_response, get_response_go_spec]
  rfl

/-! ## Claim theorems -/

/-- C9: `_get_response` returns the concatenation, in order, of exactly the
bytes pending in the serial inbound buffer, leaves the buffer empty while
preserving the write log, and on an already-empty buffer returns the empty
string with the port state unchanged. -/
theorem c9_receive_drains_buffer (s : SerialPort) :
    (get_response s).1 = String.mk s.inbuffer ∧
    (get_response s).2.inbuffer = [] ∧
    (get_response s).2.written = s.written ∧
    (s.inbuffer = [] → get_response s = ("", s)) := by
  obtain ⟨w, buf⟩ := s
  rw [get_response_spec]
  refine ⟨rfl, rfl, rfl, fun h => ?_⟩
  cases h
  rfl

/-- Witness for C9 at a concrete port whose buffer is empty. -/
theorem c9_receive_drains_buffer_witness :
    get_response ⟨["(power:on)"], []⟩ = ("", ⟨["(power:on)"], []⟩) :=
  (c9_receive_drains_buffer ⟨["(power:on)"], []⟩).2.2.2 rfl

/-- C3: the wire string built by `_create_command_string` is
prefix ++ command ++ separator ++ action ++ suffix, each of the three
surround fields defaulting to the empty string when unset; concretely,
with prefix `"("`, separator `":"` and suffix `")"`, the pair
`("power", "on")` produces `"(power:on)"`. -/
theorem c3_wire_string (config : Dict) (command action p sep suf : String) :
    (getKey config "left_surround" = some (.str p) →
      getKey config "seperator" = some (.str sep) →
      getKey config "right_surround" = some (.str suf) →
      create_command_string config command action =
        p ++ command ++ sep ++ action ++ suf) ∧
    (getKey config "left_surround" = Option.none →
      getKey config "seperator" = Option.none →
      getKey config "right_surround" = Option.none →
      create_command_string config command action = command ++ action) ∧
    create_command_string demoConfig "power" "on" = "(power:on)" := by
  refine ⟨fun h1 h2 h3 => ?_, fun h1 h2 h3 => ?_, by decide⟩
  · simp [create_command_string, h1, h2, h3, pyStr]
  · simp [create_command_string, h1, h2, h3, pyStr, String.append_empty]

/-- Witness for C3 at the representative profile. -/
theorem c3_wire_string_witness :
    create_command_string demoConfig "power" "on" =
      "(" ++ "power" ++ ":" ++ "on" ++ ")" :=
  (c3_wire_string demoConfig "power" "on" "(" ":" ")").1 rfl rfl rfl

/-- C1 (code bug): the source passes two arguments to `time.sleep` — the
looked-up wait_time and the literal 1 — so every dispatch, wait_time set
or not, raises `TypeError` after writing the wire string, instead of
sleeping and returning the drained response promised by the claim and by
the docstring of the method itself. -/
theorem c1_dispatch_always_raises :
    (∀ (config : Dict) (ser : SerialPort) (command action : String),
      command_handler config ser command action =
        .error (.typeError "sleep() takes exactly 1 argument (2 given)")) ∧
    getKey demoConfig "wait_time" = some (.num 1) ∧
    command_handler demoConfig ⟨[], ['O', 'K']⟩ "power" "on" =
      .error (.typeError "sleep() takes exactly 1 argument (2 given)") := by
  refine ⟨fun config ser command action => ?_, rfl, rfl⟩
  cases h : (getKey config "wait_time").getD Value.null <;>
    simp [command_handler, timeSleep, h] <;> decide

/-- C2: dispatch on a profile with no `wait_time` key fails with an error
rather than silently substituting a default wait duration — no invocation
with `wait_time` unset ever returns a response. -/
theorem c2_dispatch_without_wait_time_fails (config : Dict) (ser : SerialPort)
    (command action : String) (h : getKey config "wait_time" = Option.none) :
    command_handler config ser command action =
      .error (.typeError "sleep() takes exactly 1 argument (2 given)") ∧
    ∀ result, command_handler config ser command action ≠ .ok result := by
  have hfail : command_handler config ser command action =
      .error (.typeError "sleep() takes exactly 1 argument (2 given)") := by
    have hv : (getKey config "wait_time").getD Value.null = Value.null := by
      rw [h]
      rfl
    simp [command_handler, timeSleep, hv]
    decide
  exact ⟨hfail, fun result hr => by rw [hfail] at hr; cases hr⟩

/-- Witness for C2 at a profile without `wait_time`. -/
theorem c2_dispatch_without_wait_time_fails_witness :
    command_handler noWaitConfig ⟨[], []⟩ "power" "on" =
      .error (.typeError "sleep() takes exactly 1 argument (2 given)") :=
  (c2_dispatch_without_wait_time_fails noWaitConfig ⟨[], []⟩ "power" "on" rfl).1

/-- C8: looking up a device identifier absent from the loaded catalog fails
with a `KeyError` whose message names the identifier and the expected
catalog directory; looking up a present identifier returns its catalog
entry. -/
theorem c8_profile_lookup (available_configs : List (String × Dict))
    (device_id : String) :
    (device_id ∉ available_configs.map Prod.fst →
      get_device_config_from_id available_configs device_id =
        .error (.keyError (deviceNotFoundMsg device_id))) ∧
    (device_id ∈ available_configs.map Prod.fst →
      ∃ cfg, get_device_config_from_id available_configs device_id = .ok cfg ∧
        (device_id, cfg) ∈ available_configs) ∧
    deviceNotFoundMsg device_id =
      "Could not find device config with name " ++ device_id ++
        ". Check that the file exists in  `pyjector/projector_configs/`" := by
  refine ⟨?_, ?_, rfl⟩
  · intro h
    induction available_configs with
    | nil => rfl
    | cons kv rest ih =>
      obtain ⟨name, cfg⟩ := kv
      simp only [List.map_cons, List.mem_cons, not_or] at h
      rw [get_device_config_from_id, if_neg (Ne.symm h.1)]
      exact ih h.2
  · intro h
    induction available_configs with
    | nil => cases h
    | cons kv rest ih =>
      obtain ⟨name, cfg⟩ := kv
      by_cases hn : name = device_id
      · subst hn
        exact ⟨cfg, by rw [get_device_config_from_id, if_pos rfl],
          List.mem_cons_self _ _⟩
      · have hmem : device_id ∈ rest.map Prod.fst := by
          rcases List.mem_cons.1 h with heq | hrest
          · exact absurd heq.symm hn
          · exact hrest
        obtain ⟨cfg', hc, hm⟩ := ih hmem
        refine ⟨cfg', ?_, List.mem_cons_of_mem _ hm⟩
        rw [get_device_config_from_id, if_neg hn]
        exact hc

/-- Witness for C8 on a concrete one-entry catalog and a missing id. -/
theorem c8_profile_lookup_witness :
    get_device_config_from_id [("benq", demoConfig)] "acme" =
      .error (.keyError (deviceNotFoundMsg "acme")) :=
  (c8_profile_lookup [("benq", demoConfig)] "acme").1 (by decide)

/-- C4 counterexample: a profile whose `serial` block is present but empty
(with a non-empty command list) passes `_validate_config`, while the claim
says such a profile is rejected. -/
theorem c4_empty_serial_accepted :
    getKey emptySerialConfig "serial" = some (.dict []) ∧
    validate_config "benq" emptySerialConfig = .ok () := ⟨rfl, rfl⟩

/-- C4 (amended): validation succeeds iff the profile has a `serial` key —
of any contents, an empty block included — and a `command_list` whose value
has positive Python length; a missing `serial` key raises the `KeyError`
naming the serial section, and a missing `command_list` raises the
`KeyError` reporting that no commands are defined. -/
theorem c4_validate_config (device_id : String) (config : Dict) :
    (validate_config device_id config = .ok () ↔
      (getKey config "serial").isSome ∧
      ∃ v n, getKey config "command_list" = some v ∧ pyLen v = .ok n ∧ 0 < n) ∧
    ((getKey config "serial").isNone →
      validate_config device_id config =
        .error (.keyError (missingSerialMsg device_id))) ∧
    ((getKey config "serial").isSome →
      getKey config "command_list" = Option.none →
      validate_config device_id config =
        .error (.keyError (noCommandsMsg device_id))) := by
  refine ⟨?_, ?_, ?_⟩
  · cases hs : getKey config "serial" with
    | none => simp [validate_config, hs]
    | some sv =>
      cases hc : getKey config "command_list" with
      | none => simp [validate_config, hs, hc]
      | some v =>
        cases hl : pyLen v with
        | error e => simp [validate_config, hs, hc, hl]
        | ok n =>
          by_cases hn : n = 0
          · subst hn
            simp [validate_config, hs, hc, hl]
          · simp [validate_config, hs, hc, hl, hn, Nat.pos_of_ne_zero hn]
  · intro hs
    simp [validate_config, hs]
  · intro hs hc
    rw [Option.isSome_iff_exists] at hs
    obtain ⟨sv, hsv⟩ := hs
    simp [validate_config, hsv, hc]

/-- Witness for C4 at the profile with no `serial` key. -/
theorem c4_validate_config_witness :
    validate_config "benq"
        [("command_list", .dict [("power", .dict [("command", .str "pow")])])] =
      .error (.keyError (missingSerialMsg "benq")) :=
  (c4_validate_config "benq"
    [("command_list", .dict [("power", .dict [("command", .str "pow")])])]).2.1 rfl

/-- C7: `_apply_overrides` is a shallow key-for-key merge — an override
value fully replaces the profile value for its key, untouched top-level
keys keep their profile values, and for the `serial` example the resolved
entry is exactly the override's mapping. -/
theorem c7_shallow_merge (config overrides : Dict) (k : String)
    (hnd : (keysOf overrides).Nodup) :
    (getKey (apply_overrides config overrides) k =
      match getKey overrides k with
      | some v => some v
      | Option.none => getKey config k) ∧
    apply_overrides [("serial", .dict [("port", .str "A")])]
        [("serial", .dict [("port", .str "B")])] =
      [("serial", .dict [("port", .str "B")])] ∧
    getKey (apply_overrides [("serial", .dict [("port", .str "A")])]
        [("serial", .dict [("port", .str "B")])]) "serial" =
      some (.dict [("port", .str "B")]) :=
  ⟨getKey_updateDict config overrides k hnd, rfl, rfl⟩

/-- Witness for C7: an override replaces `wait_time`, and an untouched key
keeps its profile value. -/
theorem c7_shallow_merge_witness :
    getKey (apply_overrides demoConfig [("wait_time", Value.num 2)]) "wait_time" =
      some (.num 2) ∧
    getKey (apply_overrides demoConfig [("wait_time", Value.num 2)]) "seperator" =
      some (.str ":") :=
  ⟨(c7_shallow_merge demoConfig [("wait_time", Value.num 2)] "wait_time"
      (by decide)).1,
    (c7_shallow_merge demoConfig [("wait_time", Value.num 2)] "seperator"
      (by decide)).1⟩

theorem lookupVal_isSome (t : List (Value × Value)) (v : Value) :
    (lookupVal t v).isSome = true ↔ v ∈ t.map Prod.fst := by
  induction t with
  | nil => simp [lookupVal]
  | cons kv rest ih =>
    obtain ⟨a, b⟩ := kv
    by_cases h : a = v
    · subst h
      simp [lookupVal]
    · simp [lookupVal, h, Ne.symm h, ih]

/-- C5 (amended): the three translation tables accept exactly byte sizes
{5,6,7,8}, parities {none,even,odd,mark,space} and stop bits {1,1.5,2}; a
converter key holding any other value makes the conversion fail, the error
being the `KeyError` naming both the value and the key whenever no earlier
entry of the serial block is itself offending (entries are processed in
order and the first offence determines the error); on success, keys not
requiring translation pass through unchanged and converter keys hold their
table values. -/
theorem c5_enum_translation (device_id : String) (sc : Dict) :
    (∀ v, (lookupVal bytesize_table v).isSome = true ↔
      (v = .num 5 ∨ v = .num 6 ∨ v = .num 7 ∨ v = .num 8)) ∧
    (∀ v, (lookupVal parity_table v).isSome = true ↔
      (v = .str "none" ∨ v = .str "even" ∨ v = .str "odd" ∨
        v = .str "mark" ∨ v = .str "space")) ∧
    (∀ v, (lookupVal stopbits_table v).isSome = true ↔
      (v = .num 1 ∨ v = .num (3 / 2) ∨ v = .num 2)) ∧
    (∀ k v table, (k, v) ∈ sc → lookupConverter k = some table →
      lookupVal table v = Option.none →
      ∀ out, get_pyserial_config_go device_id sc sc ≠ .ok out) ∧
    (∀ pre k v table post,
      sc = pre ++ (k, v) :: post →
      k ∈ possible_pyserial_settings →
      lookupConverter k = some table →
      lookupVal table v = Option.none →
      (∀ kv ∈ pre, entryOk kv = true) →
      get_pyserial_config_go device_id sc sc =
        .error (.keyError (unsupportedValueMsg device_id v k))) ∧
    ((keysOf sc).Nodup →
      ∀ out k v, get_pyserial_config_go device_id sc sc = .ok out →
        (k, v) ∈ sc →
        (lookupConverter k = Option.none → getKey out k = some v) ∧
        (∀ table nv, lookupConverter k = some table →
          lookupVal table v = some nv → getKey out k = some nv)) := by
  refine ⟨?_, ?_, ?_, ?_, ?_, ?_⟩
  · intro v
    rw [lookupVal_isSome]
    simp [bytesize_table, FIVEBITS, SIXBITS, SEVENBITS, EIGHTBITS]
  · intro v
    rw [lookupVal_isSome]
    simp [parity_table, PARITY_NONE, PARITY_EVEN, PARITY_ODD, PARITY_MARK,
      PARITY_SPACE]
  · intro v
    rw [lookupVal_isSome]
    simp [stopbits_table, STOPBITS_ONE, STOPBITS_ONE_POINT_FIVE, STOPBITS_TWO]
  · intro k v table hmem hconv hlv out hgo
    have hall := (go_ok_iff device_id sc sc).1 ⟨out, hgo⟩
    have hk := hall (k, v) hmem
    simp [entryOk, hconv, hlv] at hk
  · intro pre k v table post hsc hkmem hconv hlv hpre
    subst hsc
    exact go_first_bad_value device_id pre k v table post _ hkmem hconv hlv hpre
  · intro hnd out k v hgo hmem
    have hall := (go_ok_iff device_id sc sc).1 ⟨out, hgo⟩
    have hout : out = sc.foldl translateStep sc := by
      have he := go_ok_of_entries device_id sc sc hall
      rw [he] at hgo
      exact (Except.ok.inj hgo).symm
    subst hout
    constructor
    · intro hconv
      rw [getKey_foldl_translateStep_mem sc sc k v hnd hmem]
      simp only [hconv]
      exact getKey_of_mem_nodup sc k v hnd hmem
    · intro table nv hconv hlv
      rw [getKey_foldl_translateStep_mem sc sc k v hnd hmem]
      simp [hconv, hlv]

/-- Witness for C5: on the representative serial block, `port` passes
through unchanged and `parity` is translated to pyserial's constant. -/
theorem c5_enum_translation_witness :
    getKey demoSerialTranslated "port" = some (.str "/dev/ttyS0") ∧
    getKey demoSerialTranslated "parity" = some (.str "N") :=
  ⟨((c5_enum_translation "benq" demoSerial).2.2.2.2.2 (by decide)
      demoSerialTranslated "port" (.str "/dev/ttyS0") rfl (by decide)).1 rfl,
    ((c5_enum_translation "benq" demoSerial).2.2.2.2.2 (by decide)
      demoSerialTranslated "parity" (.str "none") rfl (by decide)).2
      parity_table PARITY_NONE rfl rfl⟩

/-- C5 counterexample: in `mixedBadSerial2` the converter key `parity`
holds the untranslatable value `"zzz"`, yet conversion fails with the
allow-list error for the earlier unknown key `flowcontrol`, not with an
UnsupportedValue error naming parity and zzz. -/
theorem c5_order_counterexample :
    ("parity", Value.str "zzz") ∈ mixedBadSerial2 ∧
    lookupConverter "parity" = some parity_table ∧
    lookupVal parity_table (.str "zzz") = Option.none ∧
    get_pyserial_config_go "benq" mixedBadSerial2 mixedBadSerial2 =
      .error (.keyError (unsupportedSettingMsg "benq" "flowcontrol")) ∧
    unsupportedSettingMsg "benq" "flowcontrol" ≠
      unsupportedValueMsg "benq" (.str "zzz") "parity" :=
  ⟨by decide, rfl, rfl, rfl, by decide⟩

/-- C6 (amended): a serial block containing any key outside the allow-list
never converts successfully; the failure is the `KeyError` naming that key
whenever no earlier entry of the block is itself offending (entries are
processed in order and the first offence determines the error); and when
every key is allow-listed the conversion either succeeds or fails with an
enum-value error, never with an allow-list error. -/
theorem c6_allowlist (device_id : String) (sc : Dict) :
    ((∃ k ∈ keysOf sc, k ∉ possible_pyserial_settings) →
      ∀ out, get_pyserial_config_go device_id sc sc ≠ .ok out) ∧
    (∀ pre k v post,
      sc = pre ++ (k, v) :: post →
      k ∉ possible_pyserial_settings →
      (∀ kv ∈ pre, entryOk kv = true) →
      get_pyserial_config_go device_id sc sc =
        .error (.keyError (unsupportedSettingMsg device_id k))) ∧
    ((∀ k ∈ keysOf sc, k ∈ possible_pyserial_settings) →
      (∃ out, get_pyserial_config_go device_id sc sc = .ok out) ∨
      (∃ k v table, (k, v) ∈ sc ∧ lookupConverter k = some table ∧
        lookupVal table v = Option.none ∧
        get_pyserial_config_go device_id sc sc =
          .error (.keyError (unsupportedValueMsg device_id v k)))) := by
  refine ⟨?_, ?_, ?_⟩
  · intro h out hgo
    obtain ⟨k, hk, hbad⟩ := h
    obtain ⟨v, hv, rfl⟩ := List.mem_map.1 hk
    have hall := (go_ok_iff device_id sc sc).1 ⟨out, hgo⟩
    have := hall v hv
    simp [entryOk, hbad] at this
  · intro pre k v post hsc hk hpre
    subst hsc
    exact go_first_bad_key device_id pre k v post _ hk hpre
  · intro h
    exact go_all_allowed device_id sc sc (fun kv hm =>
      h kv.1 (List.mem_map.2 ⟨kv, hm, rfl⟩))

/-- Witness for C6 at a one-entry block with an unknown key. -/
theorem c6_allowlist_witness :
    get_pyserial_config_go "benq" [("flowcontrol", Value.num 1)]
        [("flowcontrol", Value.num 1)] =
      .error (.keyError (unsupportedSettingMsg "benq" "flowcontrol")) :=
  (c6_allowlist "benq" [("flowcontrol", Value.num 1)]).2.1 [] "flowcontrol"
    (.num 1) [] rfl (by decide) (fun kv hm => absurd hm (List.not_mem_nil kv))

/-- C6 counterexample: `mixedBadSerial` contains the non-allow-listed key
`flowcontrol`, yet conversion fails with the enum-value error for the
earlier entry `parity ↦ "zzz"` — no UnsupportedSetting error naming
`flowcontrol` is raised. -/
theorem c6_order_counterexample :
    "flowcontrol" ∈ keysOf mixedBadSerial ∧
    "flowcontrol" ∉ possible_pyserial_settings ∧
    get_pyserial_config_go "benq" mixedBadSerial mixedBadSerial =
      .error (.keyError (unsupportedValueMsg "benq" (.str "zzz") "parity")) ∧
    unsupportedValueMsg "benq" (.str "zzz") "parity" ≠
      unsupportedSettingMsg "benq" "flowcontrol" :=
  ⟨by decide, by decide, rfl, by decide⟩

/-- C10: `get_pyserial_config` mutates the profile in place — on success
the returned settings mapping is exactly what the profile's `serial` key
now holds; concretely, the first run rewrites `parity` from `"none"` to
`"N"` inside the profile, so the profile no longer holds the configured
value, and a second run on the already-translated profile errors instead
of returning the first run's result. -/
theorem c10_in_place_mutation :
    (∀ (device_id : String) (config config' settings : Dict),
      get_pyserial_config device_id config = .ok (config', settings) →
      getKey config' "serial" = some (.dict settings)) ∧
    get_pyserial_config "benq" demoConfig =
      .ok (demoConfigTranslated, demoSerialTranslated) ∧
    getKey demoConfig "serial" = some (.dict demoSerial) ∧
    getKey demoSerial "parity" = some (.str "none") ∧
    getKey demoSerialTranslated "parity" = some (.str "N") ∧
    demoSerialTranslated ≠ demoSerial ∧
    get_pyserial_config "benq" demoConfigTranslated =
      .error (.keyError (unsupportedValueMsg "benq" (.str "N") "parity")) ∧
    get_pyserial_config "benq" demoConfigTranslated ≠
      get_pyserial_config "benq" demoConfig := by
  have hrun1 : get_pyserial_config "benq" demoConfig =
      .ok (demoConfigTranslated, demoSerialTranslated) := rfl
  have hrun2 : get_pyserial_config "benq" demoConfigTranslated =
      .error (.keyError (unsupportedValueMsg "benq" (.str "N") "parity")) := rfl
  refine ⟨?_, hrun1, rfl, rfl, rfl, by decide, hrun2, ?_⟩
  · intro device_id config config' settings h
    cases hs : getKey config "serial" with
    | none => simp [get_pyserial_config, hs] at h
    | some sv =>
      cases sv with
      | str s => simp [get_pyserial_config, hs] at h
      | num q => simp [get_pyserial_config, hs] at h
      | bool b => simp [get_pyserial_config, hs] at h
      | null => simp [get_pyserial_config, hs] at h
      | dict sc =>
        cases hgo : get_pyserial_config_go device_id sc sc with
        | error e => simp [get_pyserial_config, hs, hgo] at h
        | ok sc' =>
          simp only [get_pyserial_config, hs, hgo, Except.ok.injEq,
            Prod.mk.injEq] at h
          obtain ⟨h1, h2⟩ := h
          subst h1
          subst h2
          exact getKey_setKey_self _ _ _
  · rw [hrun1, hrun2]
    simp

/-- Witness for C10 applying the in-place law at the representative
profile. -/
theorem c10_in_place_mutation_witness :
    getKey demoConfigTranslated "serial" = some (.dict demoSerialTranslated) :=
  (c10_in_place_mutation).1 "benq" demoConfig demoConfigTranslated
    demoSerialTranslated rfl

end Pyjector
